import Mathlib

/-!
Shallow embedding of the protocol codec and roof-motion state machine of
`indi-rolloffino` (`rolloffino.cpp`).  The driver talks to an Arduino roof
controller over a serial line using frames `"(VERB:TARGET:VALUE)"`.  The
definitions below translate, function by function, the C++ code of
`readIno`, `writeIno`, `evaluateResponse`, `readRoofSwitch`,
`pushRoofButton`, `initialContact`, `Move`, `Abort` and the flag/error
bookkeeping of `updateRoofStatus` and `TimerHit`.
-/

namespace RollOffIno

/-- Constant `MAXINOCMD` (rolloffino.cpp line 45): command buffer size. -/
def MAXINOCMD : Nat := 15

/-- Constant `MAXINOTARGET` (line 46): target buffer size. -/
def MAXINOTARGET : Nat := 15

/-- Constant `MAXINOVAL` (line 47): value buffer size, used by `readIno` as
the total-length bound on an inbound frame. -/
def MAXINOVAL : Nat := 127

/-- Constant `MAXINOLINE` (line 48): bound on outgoing command requests. -/
def MAXINOLINE : Nat := 63

/-- Constant `MAXINOBUF` (line 49): size of the overall input buffer. -/
def MAXINOBUF : Nat := 255

/-- Constant `MAX_CNTRL_COM_ERR` (line 42): maximum consecutive errors
communicating with the Arduino. -/
def MAX_CNTRL_COM_ERR : Nat := 10

/-- Local bound `cmdLen = MAXINOCMD - 5` of `readIno` (line 1341). -/
def cmdLen : Nat := MAXINOCMD - 5

/-- Local bound `targetLen = MAXINOTARGET + cmdLen - 5` of `readIno`
(line 1342). -/
def targetLen : Nat := MAXINOTARGET + cmdLen - 5

/-- Outcome of `readIno` on a byte stream: a complete frame was assembled
(`ok`), the protocol-validity checks rejected the stream (`malformed`,
the canned `"(NAK:NONE:OFF)"` is substituted and the error counter is
incremented), or the stream was exhausted and the per-byte `tty_read`
wait expires (`timeout`, also counted as a communication error). -/
inductive ReadOutcome where
  | ok (frame : List Char) : ReadOutcome
  | malformed : ReadOutcome
  | timeout : ReadOutcome
  deriving DecidableEq, Repr

/-- Loop state of `readIno` (lines 1332-1345): whether the opening
delimiter was seen, the running count of `:` delimiters, the count of
bytes accumulated since the opening delimiter, and the buffer contents.
Bytes arriving before the `(` are written over position 0 of the buffer
and are not counted (lines 1348-1349 advance the pointer only once
`startFound` holds, lines 1366-1367 count only once `startFound` holds). -/
structure ReadState where
  startFound : Bool
  delimCount : Nat
  totalCount : Nat
  buf : List Char
  deriving DecidableEq, Repr

/-- Result of processing one received byte inside `readIno`. -/
inductive StepResult where
  | cont (st : ReadState) : StepResult
  | accept (frame : List Char) : StepResult
  | reject : StepResult
  deriving DecidableEq, Repr

/-- One iteration of the `readIno` while-loop (lines 1346-1386) after a
byte `c` has been received: update `startFound` / `delimCount` /
`endFound` / `totalCount`, then apply the protection checks of lines
1370-1373, then stop with the assembled frame if the `)` was seen. -/
def inoStep (st : ReadState) (c : Char) : StepResult :=
  let sf : Bool := st.startFound || c = '('
  let dc : Nat := if c = ':' then st.delimCount + 1 else st.delimCount
  let ef : Bool := c = ')'
  let tc : Nat := if sf then st.totalCount + 1 else st.totalCount
  let b : List Char := if st.startFound then st.buf ++ [c] else [c]
  if (MAXINOVAL ≤ tc) ∨ (2 ≤ tc ∧ sf = false) ∨ (cmdLen ≤ tc ∧ dc = 0) ∨
      (targetLen ≤ tc ∧ dc < 2) ∨ (ef = true ∧ dc ≠ 2) then
    StepResult.reject
  else if ef then
    StepResult.accept b
  else
    StepResult.cont ⟨sf, dc, tc, b⟩

/-- Run of the `readIno` loop over a list of bytes offered by the serial
channel; when the list is exhausted the next `tty_read` call times out
(lines 1350-1357). -/
def runIno : ReadState → List Char → ReadOutcome
  | _, [] => ReadOutcome.timeout
  | st, c :: rest =>
    match inoStep st c with
    | StepResult.cont st2 => runIno st2 rest
    | StepResult.accept f => ReadOutcome.ok f
    | StepResult.reject => ReadOutcome.malformed

/-- Initial loop state of `readIno` (lines 1334-1343). -/
def initReadState : ReadState := ⟨false, 0, 0, []⟩

/-- Function `readIno` (lines 1332-1388) as a function of the inbound
byte stream. -/
def readIno (bytes : List Char) : ReadOutcome :=
  runIno initReadState bytes

/-- Function `writeIno` (lines 1392-1413): refuse the message when
`strlen(msg) >= MAXINOLINE`, otherwise hand the frame to the serial
channel. -/
def writeIno (msg : List Char) : Option (List Char) :=
  if MAXINOLINE ≤ msg.length then none else some msg

/-- One `strtok(s, delims)` call: skip leading delimiters, take the token
up to the next delimiter, and return the token together with the rest of
the string after that delimiter (which is where a following
`strtok(NULL, ...)` call resumes). -/
def strtokSpan (delims : List Char) (s : List Char) : List Char × List Char :=
  let s1 := s.dropWhile (fun c => delims.contains c)
  let tok := s1.takeWhile (fun c => !delims.contains c)
  (tok, (s1.drop tok.length).tail)

/-- Function `evaluateResponse` (lines 1297-1330): split the buffer with
`strtok` into verb, target and value; a `NAK` verb is reported as a
failed call (result `false`); a target equal to the connect-probe target
`"0"` is reported as success with result `true` before the verb is
checked against `ACK`; any other unrecognized verb fails; otherwise the
result is whether the value is `"ON"`.  Returns
(return value, `*result`). -/
def evaluateResponse (buf : List Char) : Bool × Bool :=
  let p1 := strtokSpan [ '(', ':' ] buf
  let inoCmd := p1.1
  let p2 := strtokSpan [ ':' ] p1.2
  let inoTarget := p2.1
  let p3 := strtokSpan [ ')' ] p2.2
  let inoVal := p3.1
  if inoCmd = "NAK".toList then (false, false)
  else if inoTarget = "0".toList then (true, true)
  else if inoCmd ≠ "ACK".toList then (false, false)
  else (true, inoVal = "ON".toList)

/-- Accumulator pass of `strtol` over base-10 digits: consume digits,
stop at the first non-digit character. -/
def parseDigits : List Char → Nat → Nat
  | [], acc => acc
  | c :: rest, acc =>
    if c.isDigit then parseDigits rest (acc * 10 + (c.toNat - 48)) else acc

/-- Library call `strtol(s, &end, 10)` as used in `initialContact`
(line 1234): skip leading blanks, accept an optional sign, then read
base-10 digits; no digits yields 0. -/
def strtolDec (s : List Char) : Int :=
  match s.dropWhile (fun c => c = ' ') with
  | [] => 0
  | c :: rest =>
    if c = '-' then -(parseDigits rest 0 : Int)
    else if c = '+' then (parseDigits rest 0 : Int)
    else (parseDigits (c :: rest) 0 : Int)

/-- Modelled from the spec: `MAX_ACTIONS` is defined in the driver header
`rolloffino.h`, which is not among the sources; the spec fixes the number
of auxiliary action slots at eight. -/
def MAX_ACTIONS : Nat := 8

/-- Response handling of `initialContact` (lines 1202-1247) applied to the
frame returned by `readIno`: `contactEstablished` is the return value of
`evaluateResponse`; on contact, the value field is re-tokenized and, when
it holds a `[` bracket, the text between the first `T` after the bracket
and the following `]` is read with `strtol`; the parsed number becomes
`actionCount` exactly when it lies in 1..`MAX_ACTIONS`, any other suffix
form leaves `actionCount = 0`.  Returns
(`contactEstablished`, `actionCount`). -/
def parseContactResponse (buf : List Char) : Bool × Nat :=
  let er := evaluateResponse buf
  if er.1 = false then (false, 0)
  else
    let p1 := strtokSpan [ '(', ':' ] buf
    let p2 := strtokSpan [ ':' ] p1.2
    let p3 := strtokSpan [ ')' ] p2.2
    let target := p3.1
    if target.contains '[' then
      let q1 := strtokSpan [ '[' ] target
      let q2 := strtokSpan [ 'T' ] q1.2
      let q3 := strtokSpan [ ']' ] q2.2
      let value := strtolDec q3.1
      if 0 < value ∧ value ≤ (MAX_ACTIONS : Int) then (true, value.toNat)
      else (true, 0)
    else (true, 0)

/-- Environment of one `pushRoofButton` call: whether `initialContact`
succeeded earlier, the outcome of the `getRoofLockedSwitch` probe made at
line 1266 (its own command/response round trip is abstracted into a
success flag and the lock value), whether `tty_write_string` succeeds,
and what `readIno` yields for the response bytes. -/
structure PushEnv where
  contactEstablished : Bool
  lockReadOk : Bool
  lockOn : Bool
  writeOk : Bool
  readResult : ReadOutcome
  deriving Repr

/-- Command frame built by `pushRoofButton` (lines 1269-1275):
`"(SET:" button ":ON)"` or `"(SET:" button ":OFF)"`. -/
def pushButtonFrame (button : List Char) (switchOn : Bool) : List Char :=
  "(SET:".toList ++ button ++ (if switchOn then ":ON)".toList else ":OFF)".toList)

/-- Function `pushRoofButton` (lines 1253-1291): refuse without contact;
refuse when the lock probe does not report an unlocked roof (unless
`ignoreLock`); otherwise write the SET frame and read the response.  The
value of `evaluateResponse` on the response is computed only for logging
(line 1283) and discarded: the returned flag is whether `readIno`
succeeded.  Returns (return value, SET frames written, increments of
`communicationErrors` made by `readIno`). -/
def pushRoofButton (e : PushEnv) (button : List Char) (switchOn ignoreLock : Bool) :
    Bool × List (List Char) × Nat :=
  if e.contactEstablished = false then (false, [], 0)
  else if (e.lockReadOk = true ∧ e.lockOn = false) ∨ ignoreLock = true then
    match writeIno (pushButtonFrame button switchOn) with
    | none => (false, [], 0)
    | some f =>
      if e.writeOk = false then (false, [f], 0)
      else
        match e.readResult with
        | ReadOutcome.ok _ => (true, [f], 0)
        | ReadOutcome.malformed => (false, [f], 1)
        | ReadOutcome.timeout => (false, [f], 1)
  else (false, [], 0)

/-- Environment of one `readRoofSwitch` round trip: whether
`tty_write_string` succeeds and what `readIno` yields. -/
structure SwitchReadEnv where
  writeOk : Bool
  readResult : ReadOutcome
  deriving Repr

/-- Query frame built by `readRoofSwitch` (lines 1186-1189):
`"(GET:" id ":0)"`. -/
def roofSwitchFrame (id : List Char) : List Char :=
  "(GET:".toList ++ id ++ ":0)".toList

/-- Function `readRoofSwitch` (lines 1173-1197): refuse without contact;
write the GET frame; read the response; on a complete frame the result is
`evaluateResponse`.  The error counter is threaded through: `readIno`
increments it on a malformed frame or a timeout (lines 1355, 1375) and no
path of a successful exchange writes it.  Returns
(success, switch value, error counter afterwards). -/
def readRoofSwitch (contact : Bool) (e : SwitchReadEnv) (id : List Char)
    (errors : Nat) : Bool × Bool × Nat :=
  if contact = false then (false, false, errors)
  else
    match writeIno (roofSwitchFrame id) with
    | none => (false, false, errors)
    | some _ =>
      if e.writeOk = false then (false, false, errors)
      else
        match e.readResult with
        | ReadOutcome.ok frame =>
          let r := evaluateResponse frame
          (r.1, r.2, errors)
        | ReadOutcome.malformed => (false, false, errors + 1)
        | ReadOutcome.timeout => (false, false, errors + 1)

/-- Reconnect condition checked by `TimerHit`
(line 733): `communicationErrors > MAX_CNTRL_COM_ERR`. -/
def shouldReconnect (errors : Nat) : Bool :=
  MAX_CNTRL_COM_ERR < errors

/-- Switch-read wrapper `getFullOpenedLimitSwitch` /
`getFullClosedLimitSwitch` / `getRoofLockedSwitch` / `getRoofAuxSwitch` /
`getActionSwitch` (lines 945-1076) around one `readRoofSwitch` call: when
the read fails, the warning log executes one more
`++communicationErrors` (lines 972, 1004, 1028, 1052, 1073) on top of
whatever increment `readIno` already made inside `readRoofSwitch`, so a
switch read that fails with a transport or protocol error raises the
counter by 2.  Returns (success, switch value, error counter
afterwards). -/
def getRoofSwitch (contact : Bool) (e : SwitchReadEnv) (id : List Char)
    (errors : Nat) : Bool × Bool × Nat :=
  let r := readRoofSwitch contact e id errors
  if r.1 = false then (false, false, r.2.2 + 1) else r

/-- Error counter after `n` consecutive failed polling switch reads —
each one a `readRoofSwitch` round trip whose `readIno` times out, as
`TimerHit`'s `updateRoofStatus` performs them — starting from
`errors`. -/
def failedReads : Nat → Nat → Nat
  | errors, 0 => errors
  | errors, n + 1 =>
    failedReads
      (getRoofSwitch true ⟨true, ReadOutcome.timeout⟩
        ("OPENED".toList) errors).2.2 n

/-- Reconnect handling of `TimerHit` (lines 733-740): when the counter
exceeds the threshold the session is torn down
(`INDI::Dome::Disconnect()`) and the counter is reset to 0.  Returns
(disconnect issued, error counter afterwards). -/
def timerReconnect (errors : Nat) : Bool × Nat :=
  if shouldReconnect errors then (true, 0) else (false, errors)

/-- Timeout tag `roofTimedOut`: `EXPIRED_CLEAR`, `EXPIRED_OPEN`,
`EXPIRED_CLOSE` (used at lines 694, 716, 843). -/
inductive TimedOut where
  | clear
  | expiredOpen
  | expiredClose
  deriving DecidableEq, Repr

/-- Driver state touched by the motion operations: the in-progress flags
`roofOpening` / `roofClosing`, the timeout tag `roofTimedOut`, and the
motion deadline request `MotionRequest` (seconds, `-1` after an abort).
Dome-level park bookkeeping (`SetParked`, `ParkSP`) belongs to the
excluded `INDI::Dome` framework and is not part of this state. -/
structure RoofState where
  roofOpening : Bool
  roofClosing : Bool
  roofTimedOut : TimedOut
  motionRequest : Int
  deriving DecidableEq, Repr

/-- State at start of a session: no motion in progress. -/
def initState : RoofState := ⟨false, false, TimedOut.clear, 0⟩

/-- Effect of `updateRoofStatus` (lines 519-611) on the motion flags,
given the switch readings: with the lock off, a definitive opened (and
not closed) reading clears `roofOpening` (line 574) and a definitive
closed (and not opened) reading clears `roofClosing` (line 580); all
other paths only drive status lights. -/
def updateRoofStatusFlags (lockSw opened closed : Bool) (s : RoofState) :
    RoofState :=
  if lockSw then s
  else if opened || closed then
    let s1 := if opened && !closed then { s with roofOpening := false } else s
    if closed && !opened then { s1 with roofClosing := false } else s1
  else s

/-- Direction argument of `Move`: `DOME_CW` opens, `DOME_CCW` closes. -/
inductive DomeDirection where
  | DOME_CW
  | DOME_CCW
  deriving DecidableEq, Repr

/-- Operation argument of `Move`. -/
inductive DomeMotionCommand where
  | MOTION_START
  | MOTION_STOP
  deriving DecidableEq, Repr

/-- Return states of `Move` (`IPState`). -/
inductive Ips where
  | ok
  | busy
  | alert
  deriving DecidableEq, Repr

/-- Actuation commands pushed to the controller: `roofOpen()`,
`roofClose()`, `roofAbort()` (lines 1097-1122), each one SET frame. -/
inductive RoofCmd where
  | openCmd
  | closeCmd
  | abortCmd
  deriving DecidableEq, Repr

/-- Environment of one `Move` call: the switch readings obtained by the
`updateRoofStatus` call at its entry (line 770), the
`INDI::Dome::isLocked()` telescope-parking predicate (line 824), and
whether the issued actuation command round trip succeeds. -/
structure MoveEnv where
  lockSw : Bool
  opened : Bool
  closed : Bool
  mountLocked : Bool
  cmdOk : Bool
  deriving Repr

/-- Function `Move` (lines 768-851): refresh the switch state; on
`MOTION_START` refuse when the external lock is on (line 773), report
in-progress without a new command when already opening or closing
(lines 778, 783); opening is refused when the opened limit switch is
already on, closing when the closed limit switch is already on or the
mount-locking policy objects; otherwise the open/close command is issued
and, on success, the direction flags are set, the timeout tag cleared and
the deadline armed (lines 843-848).  `timeoutVal` is the configured
`RoofTimeoutN` value.  Returns (IPState, commands issued, new state). -/
def Move (e : MoveEnv) (dir : DomeDirection) (op : DomeMotionCommand)
    (timeoutVal : Int) (s0 : RoofState) : Ips × List RoofCmd × RoofState :=
  let s := updateRoofStatusFlags e.lockSw e.opened e.closed s0
  match op with
  | DomeMotionCommand.MOTION_START =>
    if e.lockSw then (Ips.alert, [], s)
    else if s.roofOpening then (Ips.ok, [], s)
    else if s.roofClosing then (Ips.ok, [], s)
    else
      match dir with
      | DomeDirection.DOME_CW =>
        if e.opened then (Ips.alert, [], s)
        else if e.cmdOk then
          (Ips.busy, [RoofCmd.openCmd],
            { s with roofOpening := true, roofClosing := false,
                     roofTimedOut := TimedOut.clear,
                     motionRequest := timeoutVal })
        else (Ips.alert, [RoofCmd.openCmd], s)
      | DomeDirection.DOME_CCW =>
        if e.closed then (Ips.alert, [], s)
        else if e.mountLocked then (Ips.alert, [], s)
        else if e.cmdOk then
          (Ips.busy, [RoofCmd.closeCmd],
            { s with roofClosing := true, roofOpening := false,
                     roofTimedOut := TimedOut.clear,
                     motionRequest := timeoutVal })
        else (Ips.alert, [RoofCmd.closeCmd], s)
  | DomeMotionCommand.MOTION_STOP => (Ips.alert, [], s)

/-- Environment of one `Abort` call: switch readings from its
`updateRoofStatus` entry call (line 894) and whether the dome motion
property is busy. -/
structure AbortEnv where
  lockSw : Bool
  opened : Bool
  closed : Bool
  busy : Bool
  deriving Repr

/-- Function `Abort` (lines 888-943): with the lock engaged no action is
taken (line 899); a roof stationary at either limit switch is also left
alone; otherwise, when a motion is in progress, both direction flags are
cleared, the deadline is marked expired and the abort command is sent
(lines 929-932).  Returns (return value, commands issued, new state). -/
def Abort (e : AbortEnv) (s0 : RoofState) : Bool × List RoofCmd × RoofState :=
  let s := updateRoofStatusFlags e.lockSw e.opened e.closed s0
  if e.lockSw then (true, [], s)
  else if e.closed then (true, [], s)
  else if e.opened then (true, [], s)
  else if e.busy then
    (true, [RoofCmd.abortCmd],
      { s with roofOpening := false, roofClosing := false,
               motionRequest := -1 })
  else (true, [], s)

/-- Environment of one `TimerHit` call: switch readings from its
`updateRoofStatus` call (line 666), the dome-motion busy state and
direction switches, and whether the deadline has time left
(`0 < CalcTimeLeft`). -/
structure TimerEnv where
  lockSw : Bool
  opened : Bool
  closed : Bool
  busy : Bool
  cwOn : Bool
  ccwOn : Bool
  timeleftPos : Bool
  deriving Repr

/-- Periodic step `TimerHit` (lines 643-745) restricted to the motion
state: refresh the switch state; while busy, an aborted request
(`MotionRequest < 0`) just idles the dome; an opening move whose limit
switch is not yet on and whose time has expired clears `roofOpening` and
tags `EXPIRED_OPEN` (lines 688-695), symmetrically for closing
(lines 710-717). -/
def TimerHit (e : TimerEnv) (s0 : RoofState) : RoofState :=
  let s := updateRoofStatusFlags e.lockSw e.opened e.closed s0
  if e.busy then
    if s.motionRequest < 0 then s
    else if e.cwOn then
      if e.opened then s
      else if e.timeleftPos then s
      else { s with roofOpening := false, roofTimedOut := TimedOut.expiredOpen }
    else if e.ccwOn then
      if e.closed then s
      else if e.timeleftPos then s
      else { s with roofClosing := false, roofTimedOut := TimedOut.expiredClose }
    else s
  else s

/-- Reachability of a driver state from the initial state through the
operations that mutate the motion flags: `Move`, `Abort`, `TimerHit` and
the standalone `updateRoofStatus` refreshes, each under an arbitrary
environment. -/
inductive Reachable : RoofState → Prop where
  | init : Reachable initState
  | move (e : MoveEnv) (dir : DomeDirection) (op : DomeMotionCommand)
      (t : Int) {s : RoofState} :
      Reachable s → Reachable (Move e dir op t s).2.2
  | abort (e : AbortEnv) {s : RoofState} :
      Reachable s → Reachable (Abort e s).2.2
  | timer (e : TimerEnv) {s : RoofState} :
      Reachable s → Reachable (TimerHit e s)
  | status (lockSw opened closed : Bool) {s : RoofState} :
      Reachable s → Reachable (updateRoofStatusFlags lockSw opened closed s)

lemma takeWhile_append_delim {p : Char → Bool} {V : List Char}
    (h : ∀ c ∈ V, p c = true) {d : Char} (hd : p d = false) (rest : List Char) :
    (V ++ d :: rest).takeWhile p = V := by
  induction V with
  | nil =>
    simp only [List.nil_append]
    exact List.takeWhile_cons_of_neg (by simp [hd])
  | cons a V ih =>
    have ha : p a = true := h a (by simp)
    rw [List.cons_append, List.takeWhile_cons_of_pos ha,
      ih (fun c hc => h c (by simp [hc]))]

lemma strtokSpan_split {delims : List Char} {V : List Char} {d : Char}
    (rest : List Char) (hne : V ≠ [])
    (hV : ∀ c ∈ V, delims.contains c = false)
    (hd : delims.contains d = true) :
    strtokSpan delims (V ++ d :: rest) = (V, rest) := by
  obtain ⟨a, V1, rfl⟩ := List.exists_cons_of_ne_nil hne
  have ha : delims.contains a = false := hV a (by simp)
  have htok : ((a :: V1) ++ d :: rest).takeWhile (fun c => !delims.contains c)
      = a :: V1 :=
    takeWhile_append_delim (fun c hc => by rw [hV c hc]; rfl)
      (by rw [hd]; rfl) rest
  dsimp only [strtokSpan]
  rw [List.cons_append, List.dropWhile_cons_of_neg (by simpa using ha),
    ← List.cons_append, htok, List.drop_left]
  rfl

lemma strtokSpan_skip {delims : List Char} {c : Char} (s : List Char)
    (hc : delims.contains c = true) :
    strtokSpan delims (c :: s) = strtokSpan delims s := by
  dsimp only [strtokSpan]
  rw [List.dropWhile_cons_of_pos (by simpa using hc)]

/-- C3: the spec claims a stream whose first two bytes do not contain the
opening delimiter is rejected as malformed right after the second byte.
The code's check for this (line 1370, `totalCount >= 2 && !startFound`)
can never fire, because `totalCount` is incremented only once `startFound`
holds (lines 1366-1367): bytes arriving before a `(` are silently skipped.
On the two-byte stream `"XY"` the reader keeps waiting until the
per-byte timeout, and on `"XY(ACK:0:ON)"` it reads past the first two
bytes and accepts the later frame. -/
theorem reader_skips_leading_bytes_without_open_delim :
    readIno ("XY".toList) = ReadOutcome.timeout ∧
    readIno ("XY(ACK:0:ON)".toList) = ReadOutcome.ok ("(ACK:0:ON)".toList) :=
  ⟨rfl, rfl⟩

/-- C4: the spec claims the consecutive-error counter is reset to zero by
any successful round trip.  No success path of `readRoofSwitch`
(lines 1173-1197) writes `communicationErrors`; the only reset is the one
after a threshold-triggered disconnect (line 739).  A successful switch
read entered with the counter at 1 leaves the counter at 1, not 0. -/
theorem error_counter_not_reset_by_successful_round_trip :
    readRoofSwitch true ⟨true, ReadOutcome.ok ("(ACK:OPENED:ON)".toList)⟩
        ("OPENED".toList) 1 = (true, true, 1) ∧
    readIno ("(ACK:OPENED:ON)".toList)
        = ReadOutcome.ok ("(ACK:OPENED:ON)".toList) :=
  ⟨rfl, rfl⟩

/-- C5 counterexample: the claim says that after the 10th consecutive
transport/protocol failure the reconnect condition is still false and
that exactly the 11th makes it true.  On the program's polling path a
single failed switch read increments `communicationErrors` twice — once
in `readIno` (line 1355/1375) and once more in the `get*` wrapper
(lines 972/1004/1028/1052/1073) — so after 10 consecutive failed reads
the counter is 20 and the condition is already true; indeed it first
becomes true at the 6th failure (counter 12), not the 11th. -/
theorem tenth_consecutive_failure_already_triggers :
    failedReads 0 10 = 20 ∧ shouldReconnect (failedReads 0 10) = true ∧
    failedReads 0 6 = 12 ∧ shouldReconnect (failedReads 0 6) = true :=
  ⟨rfl, rfl, rfl, rfl⟩

/-- C5 amended: the reconnect condition itself is
`communicationErrors > MAX_CNTRL_COM_ERR`, becoming true exactly when the
counter exceeds 10 (at counter value 11); but one consecutive failure is
not one counter increment: a failed polling switch read increments the
counter by 2 (the `readIno` site plus the `get*` wrapper site), so
starting from zero the reconnect condition becomes true — and the
periodic step disconnects and zeroes the counter — after 6 consecutive
failed switch reads (counter 12), while after 5 (counter 10) it is still
false; and a `pushRoofButton` call whose outbound write fails increments
the counter zero times, so such failures alone never trigger it. -/
theorem reconnect_threshold_with_double_increment :
    shouldReconnect 11 = true ∧ shouldReconnect 10 = false ∧
    (getRoofSwitch true ⟨true, ReadOutcome.timeout⟩ ("OPENED".toList) 0).2.2
      = 2 ∧
    failedReads 0 6 = 12 ∧ timerReconnect (failedReads 0 6) = (true, 0) ∧
    failedReads 0 5 = 10 ∧ timerReconnect (failedReads 0 5) = (false, 10) ∧
    (pushRoofButton ⟨true, true, false, false, ReadOutcome.timeout⟩
        ("ROOF_OPEN".toList) true false).2.2 = 0 :=
  ⟨rfl, rfl, rfl, rfl, rfl, rfl, rfl, rfl⟩

/-- C6 counterexample: the claim says the actuation call that receives
`"(NAK:SET_ROOF_OPEN:BUSY)"` returns failure.  It does not:
`pushRoofButton` returns the success of `readIno` alone (line 1284) and
discards the `evaluateResponse` verdict, so on this valid NAK frame the
actuation call returns `true`. -/
theorem nak_actuation_returns_transport_success :
    (pushRoofButton ⟨true, true, false, true,
        ReadOutcome.ok ("(NAK:SET_ROOF_OPEN:BUSY)".toList)⟩
      ("ROOF_OPEN".toList) true false).1 = true :=
  rfl

/-- C6 amended: the frame `"(NAK:SET_ROOF_OPEN:BUSY)"` is accepted by the
reader as a well-formed frame (so the error counter is not incremented),
`evaluateResponse` decodes it as a negative acknowledgement and reports
failure to its own caller, but `pushRoofButton` discards that verdict and
returns transport success with no error-counter increment. -/
theorem nak_decodes_negative_ack_without_error_count :
    readIno ("(NAK:SET_ROOF_OPEN:BUSY)".toList)
        = ReadOutcome.ok ("(NAK:SET_ROOF_OPEN:BUSY)".toList) ∧
    evaluateResponse ("(NAK:SET_ROOF_OPEN:BUSY)".toList) = (false, false) ∧
    pushRoofButton ⟨true, true, false, true,
        ReadOutcome.ok ("(NAK:SET_ROOF_OPEN:BUSY)".toList)⟩
        ("ROOF_OPEN".toList) true false
      = (true, [pushButtonFrame ("ROOF_OPEN".toList) true], 0) :=
  ⟨rfl, rfl, rfl⟩

/-- C7 counterexample: the claim says a well-formed inbound frame whose
total length is between 128 and 255 bytes is accepted.  The reader's
length check uses `MAXINOVAL` = 127 (line 1370), not the 255-byte buffer
size, so this well-formed 128-byte frame is rejected as malformed. -/
theorem frame_of_length_128_rejected :
    readIno ("(ACK:T:".toList ++ (List.replicate 120 'X' ++ [ ')' ]))
        = ReadOutcome.malformed ∧
    ("(ACK:T:".toList ++ (List.replicate 120 'X' ++ [ ')' ])).length = 128 :=
  ⟨rfl, rfl⟩

/-- C8 counterexample: the claim says every command string of length at
most 63 bytes is written.  `writeIno` refuses already at
`strlen(msg) >= MAXINOLINE` (line 1398), so a string of length exactly 63
is refused without writing. -/
theorem frame_of_length_63_refused :
    writeIno (List.replicate 63 'A') = none ∧
    (List.replicate 63 'A').length = 63 :=
  ⟨rfl, rfl⟩

/-- C8 amended: the outbound write succeeds exactly on command strings of
length at most 62 bytes and fails with the too-long error exactly on
strings of length 63 (`MAXINOLINE`) or more. -/
theorem outbound_write_iff_below_cap (msg : List Char) :
    (writeIno msg = some msg ↔ msg.length ≤ 62) ∧
    (writeIno msg = none ↔ 63 ≤ msg.length) := by
  unfold writeIno MAXINOLINE
  split_ifs with h <;> simp <;> omega

lemma inoStep_x (t : Nat) (b : List Char) :
    inoStep ⟨true, 2, t, b⟩ 'X' =
      if 127 ≤ t + 1 then StepResult.reject
      else StepResult.cont ⟨true, 2, t + 1, b ++ [ 'X' ]⟩ := by
  simp [inoStep, MAXINOVAL, cmdLen, targetLen, MAXINOCMD, MAXINOTARGET]

lemma inoStep_close (t : Nat) (b : List Char) :
    inoStep ⟨true, 2, t, b⟩ ')' =
      if 127 ≤ t + 1 then StepResult.reject
      else StepResult.accept (b ++ [ ')' ]) := by
  simp [inoStep, MAXINOVAL, cmdLen, targetLen, MAXINOCMD, MAXINOTARGET]

lemma runIno_x_run (k : Nat) : ∀ (t : Nat) (b : List Char),
    runIno ⟨true, 2, t, b⟩ (List.replicate k 'X' ++ [ ')' ]) =
      if t + k + 1 ≤ 126 then
        ReadOutcome.ok (b ++ (List.replicate k 'X' ++ [ ')' ]))
      else ReadOutcome.malformed := by
  induction k with
  | zero =>
    intro t b
    simp only [List.replicate, List.nil_append]
    rw [runIno, inoStep_close]
    by_cases h : 127 ≤ t + 1
    · rw [if_pos h]
      dsimp only
      rw [if_neg (by omega : ¬ t + 0 + 1 ≤ 126)]
    · rw [if_neg h]
      dsimp only
      rw [if_pos (by omega : t + 0 + 1 ≤ 126)]
  | succ k ih =>
    intro t b
    simp only [List.replicate, List.cons_append]
    rw [runIno, inoStep_x]
    by_cases h : 127 ≤ t + 1
    · rw [if_pos h]
      dsimp only
      rw [if_neg (by omega : ¬ t + (k + 1) + 1 ≤ 126)]
    · rw [if_neg h]
      dsimp only
      rw [ih (t + 1) (b ++ [ 'X' ])]
      by_cases h2 : t + (k + 1) + 1 ≤ 126
      · rw [if_pos (by omega : t + 1 + k + 1 ≤ 126), if_pos h2]
        simp
      · rw [if_neg (by omega : ¬ t + 1 + k + 1 ≤ 126), if_neg h2]

lemma runIno_after_header (rest : List Char) :
    runIno initReadState ("(ACK:T:".toList ++ rest)
      = runIno ⟨true, 2, 7, "(ACK:T:".toList⟩ rest := rfl

/-- C7 amended: the reader's length cut-off sits at `MAXINOVAL` = 127
bytes, not at the 255-byte buffer size.  For the family of well-formed
frames `"(ACK:T:" X^k ")"` of total length `8 + k`, the frame is accepted
exactly when `k ≤ 118`, that is, total length at most 126; every longer
frame — in particular every well-formed frame of length 128 to 255 — is
rejected as malformed before or at its closing delimiter. -/
theorem inbound_cap_is_127 (k : Nat) :
    readIno ("(ACK:T:".toList ++ (List.replicate k 'X' ++ [ ')' ])) =
      if k ≤ 118 then
        ReadOutcome.ok ("(ACK:T:".toList ++ (List.replicate k 'X' ++ [ ')' ]))
      else ReadOutcome.malformed := by
  rw [readIno, runIno_after_header, runIno_x_run]
  by_cases h : k ≤ 118
  · rw [if_pos (by omega : 7 + k + 1 ≤ 126), if_pos h]
  · rw [if_neg (by omega : ¬ 7 + k + 1 ≤ 126), if_neg h]

/-- C1: with the external roof-lock switch reading ON, `Move` with
`DOME_CW` (request to open) and with `DOME_CCW` (request to close) both
return `IPS_ALERT`, issue no actuation command and leave the motion state
untouched, and `Abort` likewise takes no action and sends nothing — for
every limit-switch reading and every motion state. -/
theorem lock_engaged_refuses_motion_and_abort
    (e : MoveEnv) (a : AbortEnv) (t : Int) (s : RoofState)
    (hm : e.lockSw = true) (ha : a.lockSw = true) :
    Move e DomeDirection.DOME_CW DomeMotionCommand.MOTION_START t s
        = (Ips.alert, [], s) ∧
    Move e DomeDirection.DOME_CCW DomeMotionCommand.MOTION_START t s
        = (Ips.alert, [], s) ∧
    Abort a s = (true, [], s) := by
  simp [Move, Abort, updateRoofStatusFlags, hm, ha]

/-- C1 witness: a concrete locked environment acting on the initial
state. -/
theorem lock_engaged_refusal_witness :
    Move ⟨true, false, false, false, true⟩ DomeDirection.DOME_CW
        DomeMotionCommand.MOTION_START 40 initState
        = (Ips.alert, [], initState) ∧
    Move ⟨true, false, false, false, true⟩ DomeDirection.DOME_CCW
        DomeMotionCommand.MOTION_START 40 initState
        = (Ips.alert, [], initState) ∧
    Abort ⟨true, false, false, false⟩ initState = (true, [], initState) :=
  lock_engaged_refuses_motion_and_abort ⟨true, false, false, false, true⟩
    ⟨true, false, false, false⟩ 40 initState rfl rfl

lemma update_flags_mutex {s : RoofState}
    (h : ¬(s.roofOpening = true ∧ s.roofClosing = true)) (l o c : Bool) :
    ¬((updateRoofStatusFlags l o c s).roofOpening = true ∧
      (updateRoofStatusFlags l o c s).roofClosing = true) := by
  obtain ⟨so, sc, st, sm⟩ := s
  simp only [updateRoofStatusFlags]
  split_ifs <;> simp_all

lemma move_mutex (e : MoveEnv) (dir : DomeDirection) (op : DomeMotionCommand)
    (t : Int) {s : RoofState}
    (h : ¬(s.roofOpening = true ∧ s.roofClosing = true)) :
    ¬((Move e dir op t s).2.2.roofOpening = true ∧
      (Move e dir op t s).2.2.roofClosing = true) := by
  have h2 := update_flags_mutex h e.lockSw e.opened e.closed
  simp only [Move]
  cases op <;> cases dir <;> split_ifs <;> simp_all

lemma abort_mutex (e : AbortEnv) {s : RoofState}
    (h : ¬(s.roofOpening = true ∧ s.roofClosing = true)) :
    ¬((Abort e s).2.2.roofOpening = true ∧
      (Abort e s).2.2.roofClosing = true) := by
  have h2 := update_flags_mutex h e.lockSw e.opened e.closed
  simp only [Abort]
  split_ifs <;> simp_all

lemma timer_mutex (e : TimerEnv) {s : RoofState}
    (h : ¬(s.roofOpening = true ∧ s.roofClosing = true)) :
    ¬((TimerHit e s).roofOpening = true ∧
      (TimerHit e s).roofClosing = true) := by
  have h2 := update_flags_mutex h e.lockSw e.opened e.closed
  simp only [TimerHit]
  split_ifs <;> simp_all

/-- C2: in every state reachable from the initial state through `Move`,
`Abort`, `TimerHit` and the `updateRoofStatus` flag refreshes — each under
an arbitrary environment of switch readings and command outcomes — the
`roofOpening` and `roofClosing` flags are never simultaneously true. -/
theorem opening_closing_mutually_exclusive (s : RoofState)
    (h : Reachable s) :
    ¬(s.roofOpening = true ∧ s.roofClosing = true) := by
  induction h with
  | init => simp [initState]
  | move e dir op t hs ih => exact move_mutex e dir op t ih
  | abort e hs ih => exact abort_mutex e ih
  | timer e hs ih => exact timer_mutex e ih
  | status l o c hs ih => exact update_flags_mutex ih l o c

/-- C2 witness: the invariant instantiated at the (reachable) initial
state. -/
theorem opening_closing_mutex_witness :
    ¬(initState.roofOpening = true ∧ initState.roofClosing = true) :=
  opening_closing_mutually_exclusive initState Reachable.init

lemma contains_singleton_false {x c : Char} (h : c ≠ x) :
    ([ x ] : List Char).contains c = false := by simp [h]

lemma isDigit_ne {c : Char} (x : Char) (h : c.isDigit = true)
    (hx : x.isDigit = false) :
    c ≠ x := fun e => by rw [e, hx] at h; exact Bool.false_ne_true h

lemma evaluateResponse_target0 (V X : List Char) (hV1 : V ≠ [])
    (hV2 : ∀ c ∈ V, c ≠ '(' ∧ c ≠ ':') (hVnak : V ≠ "NAK".toList)
    (hX1 : X ≠ []) (hX2 : ∀ c ∈ X, c ≠ ')') :
    evaluateResponse ( '(' :: (V ++ ':' :: ('0' :: ':' :: (X ++ [ ')' ]))))
      = (true, true) := by
  have h1 : strtokSpan [ '(', ':' ]
      ( '(' :: (V ++ ':' :: ('0' :: ':' :: (X ++ [ ')' ]))))
      = (V, '0' :: ':' :: (X ++ [ ')' ])) := by
    rw [strtokSpan_skip _ (by decide)]
    exact strtokSpan_split _ hV1 (fun c hc => by
      obtain ⟨n1, n2⟩ := hV2 c hc
      simp [List.contains_cons, n1, n2]) (by decide)
  have h2 : strtokSpan [ ':' ] ('0' :: ':' :: (X ++ [ ')' ]))
      = ([ '0' ], X ++ [ ')' ]) :=
    strtokSpan_split (V := [ '0' ]) _ (by simp) (by decide) (by decide)
  have h3 : strtokSpan [ ')' ] (X ++ [ ')' ]) = (X, []) :=
    strtokSpan_split [] hX1
      (fun c hc => contains_singleton_false (hX2 c hc)) (by decide)
  dsimp only [evaluateResponse]
  rw [h1]
  dsimp only
  rw [h2]
  dsimp only
  rw [h3]
  dsimp only
  rw [if_neg hVnak]
  norm_num

/-- C10: for every parsed inbound frame `"(V:0:X)"` whose verb field `V`
is not `"NAK"` and whose target field is the connect-probe target `"0"`,
`evaluateResponse` returns success with result `true` regardless of the
verb — the target check at line 1316 precedes the `ACK` check at
line 1321, so even an unrecognized verb is reported as success. -/
theorem connect_target_precedes_ack_check
    (V X : List Char) (hV1 : V ≠ [])
    (hV2 : ∀ c ∈ V, c ≠ '(' ∧ c ≠ ':')
    (hVnak : V ≠ "NAK".toList)
    (hX1 : X ≠ []) (hX2 : ∀ c ∈ X, c ≠ ')') :
    evaluateResponse ("(".toList ++ (V ++ (":0:".toList ++ (X ++ ")".toList))))
      = (true, true) :=
  evaluateResponse_target0 V X hV1 hV2 hVnak hX1 hX2

/-- C10 witness: the unrecognized verb `XYZ` with target `0` is reported
as success. -/
theorem connect_target_check_witness :
    evaluateResponse ("(XYZ:0:OFF)".toList) = (true, true) :=
  connect_target_precedes_ack_check ("XYZ".toList) ("OFF".toList)
    (by decide) (by decide) (by decide) (by decide) (by decide)

lemma contains_false_of_forall {v : List Char} {x : Char}
    (h : ∀ c ∈ v, c ≠ x) : v.contains x = false := by
  induction v with
  | nil => rfl
  | cons a t ih =>
    rw [List.contains_cons]
    have hax : (x == a) = false := by
      have := h a (by simp)
      simp [Ne.symm this]
    rw [hax, Bool.false_or]
    exact ih (fun c hc => h c (by simp [hc]))

lemma handshake_no_bracket (v : List Char) (hv1 : v ≠ [])
    (hv2 : ∀ c ∈ v, c ≠ '(' ∧ c ≠ ':' ∧ c ≠ ')' ∧ c ≠ '[') :
    parseContactResponse ("(ACK:0:".toList ++ (v ++ ")".toList))
      = (true, 0) := by
  have hbuf2 : "(ACK:0:".toList ++ (v ++ ")".toList)
      = '(' :: ([ 'A', 'C', 'K' ] ++ ':' :: ('0' :: ':' :: (v ++ [ ')' ]))) :=
    rfl
  have her2 := evaluateResponse_target0 [ 'A', 'C', 'K' ] v (by decide)
    (by decide) (by decide) hv1 (fun c hc => (hv2 c hc).2.2.1)
  have hp1b : strtokSpan [ '(', ':' ]
      ( '(' :: ([ 'A', 'C', 'K' ] ++ ':' :: ('0' :: ':' :: (v ++ [ ')' ]))))
      = ([ 'A', 'C', 'K' ], '0' :: ':' :: (v ++ [ ')' ])) := by
    rw [strtokSpan_skip _ (by decide)]
    exact strtokSpan_split _ (by decide) (by decide) (by decide)
  have hp2b : strtokSpan [ ':' ] ('0' :: ':' :: (v ++ [ ')' ]))
      = ([ '0' ], v ++ [ ')' ]) :=
    strtokSpan_split (V := [ '0' ]) _ (by simp) (by decide) (by decide)
  have hp3b : strtokSpan [ ')' ] (v ++ [ ')' ]) = (v, []) :=
    strtokSpan_split [] hv1
      (fun c hc => contains_singleton_false (hv2 c hc).2.2.1) (by decide)
  have hnb : v.contains '[' = false :=
    contains_false_of_forall (fun c hc => (hv2 c hc).2.2.2)
  rw [hbuf2]
  dsimp only [parseContactResponse]
  rw [her2]
  dsimp only
  rw [if_neg (by decide : ¬(true = false))]
  rw [hp1b]
  dsimp only
  rw [hp2b]
  dsimp only
  rw [hp3b]
  dsimp only
  rw [if_neg (show ¬(v.contains '[' = true) from fun h => by
    rw [hnb] at h; exact Bool.false_ne_true h)]

/-- C9: parsing a handshake response `"(ACK:0:" v "[ACT" d "])"` — a
version text `v` followed by a bracketed suffix whose digits `d` denote
the number `parseDigits d 0` — sets `actionCount` to that number exactly
when it lies in 1..8, and to 0 otherwise; a value text with no `[`
bracket leaves `actionCount` at 0 (line-1240 path). -/
theorem handshake_action_count
    (v d : List Char) (hv1 : v ≠ [])
    (hv2 : ∀ c ∈ v, c ≠ '(' ∧ c ≠ ':' ∧ c ≠ ')' ∧ c ≠ '[')
    (hd1 : d ≠ []) (hd2 : ∀ c ∈ d, c.isDigit = true) :
    parseContactResponse
        ("(ACK:0:".toList ++ (v ++ ("[ACT".toList ++ (d ++ "])".toList))))
      = (true, if 1 ≤ parseDigits d 0 ∧ parseDigits d 0 ≤ 8
          then parseDigits d 0 else 0) ∧
    parseContactResponse ("(ACK:0:".toList ++ (v ++ ")".toList))
      = (true, 0) := by
  refine ⟨?_, handshake_no_bracket v hv1 hv2⟩
  have hX : (v ++ ('[' :: 'A' :: 'C' :: 'T' :: (d ++ [ ']' ]))) ++ [ ')' ]
      = v ++ ('[' :: 'A' :: 'C' :: 'T' :: (d ++ [ ']', ')' ])) := by
    simp [List.append_assoc]
  have hXne : (v ++ ('[' :: 'A' :: 'C' :: 'T' :: (d ++ [ ']' ]))) ≠ [] := by
    simp
  have hXnp : ∀ c ∈ v ++ ('[' :: 'A' :: 'C' :: 'T' :: (d ++ [ ']' ])),
      c ≠ ')' := by
    intro c hc
    simp only [List.mem_append, List.mem_cons, List.mem_singleton] at hc
    rcases hc with h | h | h | h | h | h | h
    · exact (hv2 c h).2.2.1
    · subst h; decide
    · subst h; decide
    · subst h; decide
    · subst h; decide
    · exact isDigit_ne ')' (hd2 c h) (by decide)
    · rcases h with h | h
      · subst h; decide
      · simp at h
  have hbuf : "(ACK:0:".toList ++ (v ++ ("[ACT".toList ++ (d ++ "])".toList)))
      = '(' :: ([ 'A', 'C', 'K' ] ++ ':' :: ('0' :: ':' ::
          ((v ++ ('[' :: 'A' :: 'C' :: 'T' :: (d ++ [ ']' ]))) ++ [ ')' ]))) := by
    rw [hX]
    rfl
  have her : evaluateResponse
      ( '(' :: ([ 'A', 'C', 'K' ] ++ ':' :: ('0' :: ':' ::
          ((v ++ ('[' :: 'A' :: 'C' :: 'T' :: (d ++ [ ']' ]))) ++ [ ')' ]))))
      = (true, true) :=
    evaluateResponse_target0 [ 'A', 'C', 'K' ] _ (by decide) (by decide)
      (by decide) hXne hXnp
  have hp1 : strtokSpan [ '(', ':' ]
      ( '(' :: ([ 'A', 'C', 'K' ] ++ ':' :: ('0' :: ':' ::
          ((v ++ ('[' :: 'A' :: 'C' :: 'T' :: (d ++ [ ']' ]))) ++ [ ')' ]))))
      = ([ 'A', 'C', 'K' ], '0' :: ':' ::
          ((v ++ ('[' :: 'A' :: 'C' :: 'T' :: (d ++ [ ']' ]))) ++ [ ')' ])) := by
    rw [strtokSpan_skip _ (by decide)]
    exact strtokSpan_split _ (by decide) (by decide) (by decide)
  have hp2 : strtokSpan [ ':' ] ('0' :: ':' ::
        ((v ++ ('[' :: 'A' :: 'C' :: 'T' :: (d ++ [ ']' ]))) ++ [ ')' ]))
      = ([ '0' ],
          (v ++ ('[' :: 'A' :: 'C' :: 'T' :: (d ++ [ ']' ]))) ++ [ ')' ]) :=
    strtokSpan_split (V := [ '0' ]) _ (by simp) (by decide) (by decide)
  have hp3 : strtokSpan [ ')' ]
        ((v ++ ('[' :: 'A' :: 'C' :: 'T' :: (d ++ [ ']' ]))) ++ [ ')' ])
      = (v ++ ('[' :: 'A' :: 'C' :: 'T' :: (d ++ [ ']' ])), []) :=
    strtokSpan_split [] hXne
      (fun c hc => contains_singleton_false (hXnp c hc)) (by decide)
  have hcontains :
      (v ++ ('[' :: 'A' :: 'C' :: 'T' :: (d ++ [ ']' ]))).contains '['
        = true := by simp
  have hq1 : strtokSpan [ '[' ]
        (v ++ ('[' :: ('A' :: 'C' :: 'T' :: (d ++ [ ']' ]))))
      = (v, 'A' :: 'C' :: 'T' :: (d ++ [ ']' ])) :=
    strtokSpan_split _ hv1
      (fun c hc => contains_singleton_false (hv2 c hc).2.2.2) (by decide)
  have hq2 : strtokSpan [ 'T' ] ('A' :: 'C' :: 'T' :: (d ++ [ ']' ]))
      = ([ 'A', 'C' ], d ++ [ ']' ]) :=
    strtokSpan_split (V := [ 'A', 'C' ]) _ (by decide) (by decide) (by decide)
  have hq3 : strtokSpan [ ']' ] (d ++ [ ']' ]) = (d, []) :=
    strtokSpan_split [] hd1
      (fun c hc =>
        contains_singleton_false (isDigit_ne ']' (hd2 c hc) (by decide)))
      (by decide)
  have hsd : strtolDec d = (parseDigits d 0 : Int) := by
    obtain ⟨c0, d2, rfl⟩ := List.exists_cons_of_ne_nil hd1
    have h0 : c0.isDigit = true := hd2 c0 (by simp)
    dsimp only [strtolDec]
    rw [List.dropWhile_cons_of_neg (by simp [isDigit_ne ' ' h0 (by decide)])]
    dsimp only
    rw [if_neg (isDigit_ne '-' h0 (by decide)),
      if_neg (isDigit_ne '+' h0 (by decide))]
  rw [hbuf]
  dsimp only [parseContactResponse]
  rw [her]
  dsimp only
  rw [if_neg (by decide : ¬(true = false))]
  rw [hp1]
  dsimp only
  rw [hp2]
  dsimp only
  rw [hp3]
  dsimp only
  rw [if_pos hcontains]
  rw [hq1]
  dsimp only
  rw [hq2]
  dsimp only
  rw [hq3]
  dsimp only
  rw [hsd]
  by_cases hcase : 1 ≤ parseDigits d 0 ∧ parseDigits d 0 ≤ 8
  · have hz : (0 : Int) < (parseDigits d 0 : Int) ∧
        (parseDigits d 0 : Int) ≤ (MAX_ACTIONS : Int) := by
      simp only [MAX_ACTIONS]
      omega
    rw [if_pos hz, if_pos hcase]
    simp
  · have hz : ¬((0 : Int) < (parseDigits d 0 : Int) ∧
        (parseDigits d 0 : Int) ≤ (MAX_ACTIONS : Int)) := by
      simp only [MAX_ACTIONS]
      omega
    rw [if_neg hz, if_neg hcase]

/-- C9 witness: the spec's Scenario C — the handshake response
`"(ACK:0:V1.3-0[ACT4])"` yields `actionCount = 4`. -/
theorem handshake_action_count_witness :
    parseContactResponse ("(ACK:0:V1.3-0[ACT4])".toList) = (true, 4) := by
  have h := handshake_action_count ("V1.3-0".toList) [ '4' ]
    (by decide) (by decide) (by decide) (by decide)
  exact h.1

end RollOffIno
